import Mathlib

/-!
A shallow embedding of the core of `back2back/diffsum.py`: the DejaGnu
summary-file data model (testcase records and sub-results), the result
equivalence engine with its racy-failure substitution, the pair matcher,
the ten-category categorizer, and the build-error extraction pipeline.

Python strings are modelled as Lean `String` (a list of characters), and
Python string primitives (`startswith`, slicing, `find`, `lstrip`, ...)
are modelled by small helpers on the character list.  Python exceptions
(`ValueError`, `AssertionError`, `KeyError`, `SystemExit`) are modelled
by an explicit error type carried in `Except`.  The class-level mutable
caches of the source (the known-good compiler-prefix dictionary, and the
in-place racy substitution performed through a result's back-reference
to its testcase) are modelled by explicit state passing.
-/

-- Propositional equality on `Except` results is decidable componentwise
-- (used to evaluate the embedding on concrete inputs).
deriving instance DecidableEq for Except

/-- Models Python `s.startswith(pre)`: `pre` is a prefix of `s`. -/
def strStartsWith (s pre : String) : Bool :=
  pre.data.isPrefixOf s.data

/-- Models the Python slice `s[-n:]`: the trailing `n` characters of `s`
(the whole string when `s` is shorter than `n`). -/
def strTakeRight (s : String) (n : Nat) : String :=
  ⟨s.data.drop (s.data.length - n)⟩

/-- Models Python `s.lstrip()`: drop leading whitespace. -/
def strLStrip (s : String) : String :=
  ⟨s.data.dropWhile Char.isWhitespace⟩

/-- Models Python `s.rstrip()`: drop trailing whitespace. -/
def strRStrip (s : String) : String :=
  ⟨(s.data.reverse.dropWhile Char.isWhitespace).reverse⟩

/-- Smallest index at which `sub` occurs in `s`; models Python `s.find(sub)`
(which returns -1, modelled as `none`, when there is no occurrence). -/
def findSubIdx (s sub : List Char) : Option Nat :=
  (List.range (s.length + 1)).find? fun i => sub.isPrefixOf (s.drop i)

/-- Models Python `sub in s` / `s.find(sub) >= 0`. -/
def strContains (s sub : String) : Bool :=
  (findSubIdx s.data sub.data).isSome

/-- The part of `s` after its last `/` (the whole of `s` when it has no `/`);
models `os.path.basename` for the paths handled here. -/
def takeAfterLastSlash (s : List Char) : List Char :=
  (s.reverse.takeWhile (· ≠ '/')).reverse

/-- The part of `s` before its last `/` (empty when it has no `/`);
models the directory part of `os.path.split` for the paths handled here. -/
def dropAfterLastSlash (s : List Char) : List Char :=
  let b := s.reverse.takeWhile (· ≠ '/')
  if b.length = s.length then [] else s.take (s.length - b.length - 1)

/-- The Python exceptions the source can raise, with enough structure to
state what the operating system observes.  An uncaught `ValueError`,
`AssertionError` or `KeyError` makes the interpreter exit with status 1;
`raise SystemExit` with no argument exits with the status recorded here
(0 for a bare `raise SystemExit`). -/
inductive DiffsumError where
  | valueError (msg : String)
  | assertionError (msg : String)
  | keyError (msg : String)
  | systemExit (code : Nat) (printed : List String)
deriving DecidableEq, Repr

/-- The process exit status each uncaught error produces. -/
def DiffsumError.exit_status : DiffsumError → Nat
  | .systemExit code _ => code
  | _ => 1

/-- One single result (one status line) from one DejaGnu testcase:
`SumfileTestcaseResult` of the source.  The source stores a weak
back-reference to the owning testcase and derives `testname` from it;
here the testname is stored directly, and the in-place mutation performed
through the back-reference is modelled where it happens (in the
equivalence engine).  `rel_lineno` is kept for completeness; as in the
source it takes no part in equality. -/
structure SumfileTestcaseResult where
  rel_lineno : Nat
  raw_status : String
  testname : String
  message : String
deriving DecidableEq, Repr, Inhabited

namespace SumfileTestcaseResult

/-- `status` property: cook the raw status.  UN-prefixed raw statuses cook
to SKIP, all others to their trailing 4 characters (`result[-4:]`), and a
cooked value outside PASS/FAIL/SKIP raises `ValueError(self.raw_status)`. -/
def status (r : SumfileTestcaseResult) : Except DiffsumError String :=
  let result := if strStartsWith r.raw_status "UN" then "SKIP"
                else strTakeRight r.raw_status 4
  if result = "PASS" ∨ result = "FAIL" ∨ result = "SKIP" then .ok result
  else .error (.valueError r.raw_status)

/-- `as_tuple` property: `(raw_status, testname, message)`. -/
def as_tuple (r : SumfileTestcaseResult) : String × String × String :=
  (r.raw_status, r.testname, r.message)

/-- `__str__`: `": ".join(self.as_tuple)`. -/
def toStr (r : SumfileTestcaseResult) : String :=
  r.raw_status ++ ": " ++ r.testname ++ ": " ++ r.message

/-- Python `==` on two (non-None) results: `as_tuple` equality
(`__eq__` is `not (self != other)` and `__ne__` compares `as_tuple`). -/
def eq (a b : SumfileTestcaseResult) : Bool :=
  decide (a.as_tuple = b.as_tuple)

/-- `not_failure_of`: returns False (only) if `self` is the FAILure to
`other`'s PASS: same testname, `self` cooks to FAIL, `other` cooks to
PASS, and `self.message.startswith(other.message)`.  The disjuncts are
evaluated left to right, as Python's `or` does, so a `ValueError` from
cooking a status propagates only if the earlier disjuncts were falsy. -/
def not_failure_of (self : SumfileTestcaseResult)
    (other : Option SumfileTestcaseResult) : Except DiffsumError Bool :=
  match other with
  | none => .ok true
  | some o =>
    if self.testname ≠ o.testname then .ok true
    else
      match self.status with
      | .error e => .error e
      | .ok s =>
        if s ≠ "FAIL" then .ok true
        else
          match o.status with
          | .error e => .error e
          | .ok t =>
            if t ≠ "PASS" then .ok true
            else .ok (!(strStartsWith self.message o.message))

/-- `is_failure_of`: `not self.not_failure_of(other)`. -/
def is_failure_of (self : SumfileTestcaseResult)
    (other : Option SumfileTestcaseResult) : Except DiffsumError Bool :=
  match self.not_failure_of other with
  | .error e => .error e
  | .ok b => .ok (!b)

/-- `is_known_racy_failure` consults `RACYFAIL_REGEXPS`, a list of regular
expressions loaded once from the external data file `racy.tests` (not part
of the sources), searched against `str(failer)`.  That external list is
modelled by an oracle predicate `racy_oracle` on the rendered failer. -/
def is_known_racy_failure (racy_oracle : String → Bool)
    (failer _passer : SumfileTestcaseResult) : Bool :=
  racy_oracle failer.toStr

/-- `is_racy_failure`: the allow-list oracle, or the hard-coded rule that a
KFAIL/XFAIL raw status on a `gdb.threads/` test is racy; only the latter
prints the `warning: ...: ignored (racy)` line (to stderr).  The printed
warnings are returned alongside the boolean. -/
def is_racy_failure (racy_oracle : String → Bool)
    (failer passer : SumfileTestcaseResult) : Bool × List String :=
  if is_known_racy_failure racy_oracle failer passer then (true, [])
  else if (failer.raw_status = "KFAIL" ∨ failer.raw_status = "XFAIL")
          ∧ strStartsWith failer.testname "gdb.threads/" = true then
    (true, ["warning: " ++ failer.toStr ++ ": ignored (racy)"])
  else (false, [])

/-- Outcome of the result-level `not_equivalent_to`: the boolean the call
returns, the in-place substitution (if any) it performed through the
failer's testcase back-reference — `(failer_is_self, failer, passer)` —
the warnings printed while classifying, and how many times the racy
classifier (`is_racy_failure`) was consulted. -/
structure NotEquivOutcome where
  not_equiv : Bool
  subst : Option (Bool × SumfileTestcaseResult × SumfileTestcaseResult)
  warnings : List String
  racy_consults : Nat
deriving DecidableEq, Repr

/-- Result-level `not_equivalent_to`: literal equality, else try the
failure-of relation in both directions, else not equivalent; on a
failure-of pair consult the racy classifier, and on acceptance replace the
failer by the passer (recorded in `subst`; the list-level engine applies
it) and report equivalent. -/
def not_equivalent_to (racy_oracle : String → Bool)
    (self : SumfileTestcaseResult) (other : Option SumfileTestcaseResult) :
    Except DiffsumError NotEquivOutcome :=
  match other with
  | none => .ok ⟨true, none, [], 0⟩
  | some o =>
    if self.eq o then .ok ⟨false, none, [], 0⟩
    else
      match self.is_failure_of (some o) with
      | .error e => .error e
      | .ok true =>
        match is_racy_failure racy_oracle self o with
        | (true, w) => .ok ⟨false, some (true, self, o), w, 1⟩
        | (false, w) => .ok ⟨true, none, w, 1⟩
      | .ok false =>
        match o.is_failure_of (some self) with
        | .error e => .error e
        | .ok true =>
          match is_racy_failure racy_oracle o self with
          | (true, w) => .ok ⟨false, some (false, o, self), w, 1⟩
          | (false, w) => .ok ⟨true, none, w, 1⟩
        | .ok false => .ok ⟨true, none, [], 0⟩

end SumfileTestcaseResult

/-- The complete summary log output of one DejaGnu testcase:
`SumfileTestcase` of the source.  `lines` is the raw line buffer
(starting with the `Running ... ...` line); `results` is the ordered list
of parsed sub-results. -/
structure SumfileTestcase where
  lines : List String
  results : List SumfileTestcaseResult
deriving DecidableEq, Repr, Inhabited

/-- `RUNLINE_PREFIX` of the source. -/
def RUNLINE_PREFIX : String := "Running "

/-- `RUNLINE_SUFFIX` of the source. -/
def RUNLINE_SUFFIX : String := " ...\n"

namespace SumfileTestcase

/-- `filename` property: `self.lines[0][len(RUNLINE_PREFIX):-len(RUNLINE_SUFFIX)]`. -/
def filename (tc : SumfileTestcase) : String :=
  let l := (tc.lines.headD "").data
  ⟨(l.drop RUNLINE_PREFIX.data.length).take
      (l.length - RUNLINE_PREFIX.data.length - RUNLINE_SUFFIX.data.length)⟩

/-- `shortname` property: basename of the filename's directory joined with
the filename's basename (`os.path.join(os.path.basename(dirname), basename)`). -/
def shortname (tc : SumfileTestcase) : String :=
  let fn := tc.filename.data
  let dirname := dropAfterLastSlash fn
  let base := takeAfterLastSlash fn
  let dirbase := takeAfterLastSlash dirname
  if dirbase.isEmpty then ⟨base⟩ else ⟨dirbase ++ '/' :: base⟩

/-- One step of building the cooked-counts dictionary:
`counts[s] = counts.get(s, 0) + 1` on an insertion-ordered association
list with unique keys (the model of a Python dict). -/
def incr (acc : List (String × Nat)) (s : String) : List (String × Nat) :=
  if acc.any (fun p => decide (p.1 = s)) then
    acc.map (fun p => if p.1 = s then (p.1, p.2 + 1) else p)
  else acc ++ [(s, 1)]

/-- The loop of the `counts` property over the result list; cooking a
status can raise, which aborts the whole computation as in the source. -/
def countsAux : List SumfileTestcaseResult → List (String × Nat) →
    Except DiffsumError (List (String × Nat))
  | [], acc => .ok acc
  | r :: rs, acc =>
    match r.status with
    | .error e => .error e
    | .ok s => countsAux rs (incr acc s)

/-- `counts` property: cooked status code counts (PASS, FAIL, SKIP) as an
insertion-ordered dict. -/
def counts (tc : SumfileTestcase) : Except DiffsumError (List (String × Nat)) :=
  countsAux tc.results []

/-- Python `dict.get(s, 0)` on the association-list model of a dict. -/
def lookupNat (c : List (String × Nat)) (s : String) : Nat :=
  (((c.find? (fun p => decide (p.1 = s))).map (·.2)).getD 0)

/-- `_count`: `self.counts.get(status, 0)`. -/
def _count (tc : SumfileTestcase) (s : String) : Except DiffsumError Nat :=
  match tc.counts with
  | .error e => .error e
  | .ok c => .ok (lookupNat c s)

/-- `num_passed` property. -/
def num_passed (tc : SumfileTestcase) : Except DiffsumError Nat := tc._count "PASS"

/-- `num_failed` property. -/
def num_failed (tc : SumfileTestcase) : Except DiffsumError Nat := tc._count "FAIL"

/-- `num_skipped` property. -/
def num_skipped (tc : SumfileTestcase) : Except DiffsumError Nat := tc._count "SKIP"

/-- `_all_one_status`: `list(self.counts.keys()) == [status]` (Python dicts
iterate in insertion order). -/
def _all_one_status (tc : SumfileTestcase) (s : String) : Except DiffsumError Bool :=
  match tc.counts with
  | .error e => .error e
  | .ok c => .ok (decide (c.map (·.1) = [s]))

/-- `all_passed` property. -/
def all_passed (tc : SumfileTestcase) : Except DiffsumError Bool :=
  tc._all_one_status "PASS"

/-- `all_failed` property. -/
def all_failed (tc : SumfileTestcase) : Except DiffsumError Bool :=
  tc._all_one_status "FAIL"

/-- `all_skipped` property. -/
def all_skipped (tc : SumfileTestcase) : Except DiffsumError Bool :=
  tc._all_one_status "SKIP"

/-- `has_results` property: `not (not self.results)`. -/
def has_results (tc : SumfileTestcase) : Bool :=
  !tc.results.isEmpty

/-- `_replace_result`: `self.results[self.results.index(orig)] = repl`.
Python `list.index` finds the first element `==`-equal (that is,
`as_tuple`-equal) to `orig`; at both call sites `orig` is an element of
the list, so the `none` case below is unreachable (in Python it would
raise `ValueError`). -/
def replace_result (results : List SumfileTestcaseResult)
    (orig repl : SumfileTestcaseResult) : List SumfileTestcaseResult :=
  match results.findIdx? (fun r => r.eq orig) with
  | some i => results.set i repl
  | none => results

end SumfileTestcase

/-- The evolving state of one testcase-level equivalence check: the two
live result lists (mutated in place by racy substitution in the source),
the warnings printed so far, and the number of racy-classifier
consultations so far. -/
structure EquivState where
  ra : List SumfileTestcaseResult
  rb : List SumfileTestcaseResult
  warnings : List String
  racy_consults : Nat
deriving DecidableEq, Repr

/-- The `for a, b in zip(self.results, other.results)` loop of the
testcase-level `not_equivalent_to`, position by position.  Python's `zip`
reads the live lists, so a substitution performed at one position is
visible at the positions checked after it; `_replace_result` replaces the
first `==`-equal element of the failer's list. -/
def notEquivPositions (racy_oracle : String → Bool) :
    List Nat → EquivState → Except DiffsumError (Bool × EquivState)
  | [], st => .ok (false, st)
  | i :: rest, st =>
    match SumfileTestcaseResult.not_equivalent_to racy_oracle
        (st.ra.getD i default) (some (st.rb.getD i default)) with
    | .error e => .error e
    | .ok out =>
      let st' : EquivState :=
        { st with warnings := st.warnings ++ out.warnings,
                  racy_consults := st.racy_consults + out.racy_consults }
      if out.not_equiv then .ok (true, st')
      else
        match out.subst with
        | none => notEquivPositions racy_oracle rest st'
        | some (on_self, failer, passer) =>
          if on_self then
            notEquivPositions racy_oracle rest
              { st' with ra := SumfileTestcase.replace_result st'.ra failer passer }
          else
            notEquivPositions racy_oracle rest
              { st' with rb := SumfileTestcase.replace_result st'.rb failer passer }

/-- Testcase-level `not_equivalent_to` against a non-None other: a length
mismatch is immediately non-equivalent; otherwise the zip loop runs.
Returns the boolean, the two testcases as they stand after any in-place
substitutions, the warnings printed, and the racy-classifier consultations. -/
def tcNotEquivCore (racy_oracle : String → Bool) (self other : SumfileTestcase) :
    Except DiffsumError
      (Bool × SumfileTestcase × SumfileTestcase × List String × Nat) :=
  if self.results.length ≠ other.results.length then
    .ok (true, self, other, [], 0)
  else
    match notEquivPositions racy_oracle (List.range self.results.length)
        ⟨self.results, other.results, [], 0⟩ with
    | .error e => .error e
    | .ok (b, st) =>
      .ok (b, { self with results := st.ra }, { other with results := st.rb },
           st.warnings, st.racy_consults)

/-- Testcase-level `not_equivalent_to` including the `other is None` case. -/
def SumfileTestcase.not_equivalent_to (racy_oracle : String → Bool)
    (self : SumfileTestcase) (other : Option SumfileTestcase) :
    Except DiffsumError
      (Bool × SumfileTestcase × Option SumfileTestcase × List String × Nat) :=
  match other with
  | none => .ok (true, self, none, [], 0)
  | some o =>
    match tcNotEquivCore racy_oracle self o with
    | .error e => .error e
    | .ok (b, s', o', w, n) => .ok (b, s', some o', w, n)

/-- The fixed closed set of ten categories, in the priority order assigned
by `SumfileTestcasePair._cls_init` (IDENTICAL first). -/
inductive Category where
  | IDENTICAL
  | SKIPPED_EQUIVALENT
  | TEST_APPEARED
  | PART_SKIPPED
  | TEST_SKIPPED
  | TEST_BOMBED
  | TEST_VANISHED
  | EQUIVALENT
  | REGRESSED
  | IMPROVED
deriving DecidableEq, Repr

/-- The priority `enumerate` assigns each category in `_cls_init`. -/
def Category.priority : Category → Nat
  | .IDENTICAL => 0
  | .SKIPPED_EQUIVALENT => 1
  | .TEST_APPEARED => 2
  | .PART_SKIPPED => 3
  | .TEST_SKIPPED => 4
  | .TEST_BOMBED => 5
  | .TEST_VANISHED => 6
  | .EQUIVALENT => 7
  | .REGRESSED => 8
  | .IMPROVED => 9

/-- Python `==` on two dicts modelled as unique-key association lists:
same keys, each with the same value (insertion order does not matter). -/
def dictEq (x y : List (String × Nat)) : Bool :=
  x.all (fun p => decide ((y.find? (fun q => decide (q.1 = p.1))).map (·.2) = some p.2)) &&
  y.all (fun p => decide ((x.find? (fun q => decide (q.1 = p.1))).map (·.2) = some p.2))

/-- Python `==` on two result lists: elementwise `__eq__` (`as_tuple`). -/
def resultsListEq (xs ys : List SumfileTestcaseResult) : Bool :=
  decide (xs.length = ys.length) && (xs.zip ys).all (fun p => p.1.eq p.2)

namespace SumfileTestcasePair

/-- `_categorize_equivalent`: IDENTICAL when `self.a.results == self.b.results`,
else EQUIVALENT. -/
def _categorize_equivalent (a b : SumfileTestcase) : Category :=
  if resultsListEq a.results b.results then Category.IDENTICAL
  else Category.EQUIVALENT

/-- `_categorize_nonequivalent`: the strict first-match-wins comparison of
cooked counts.  In the source each `num_*` property reads the memoized
`counts` dict of its testcase, so the six reads below are lookups in one
`counts` value per side (`lookupNat c "PASS"` is `num_passed`, and so on);
an error cooking `self.b`'s statuses surfaces first, as it does in
`self.b.num_passed < self.a.num_passed`.  The final `assert
self.b.counts == self.a.counts` is the `dictEq` test. -/
def _categorize_nonequivalent (a b : SumfileTestcase) :
    Except DiffsumError Category :=
  match b.counts, a.counts with
  | .error e, _ => .error e
  | _, .error e => .error e
  | .ok cb, .ok ca =>
    if SumfileTestcase.lookupNat cb "PASS" < SumfileTestcase.lookupNat ca "PASS" then
      .ok Category.REGRESSED
    else if SumfileTestcase.lookupNat cb "SKIP" < SumfileTestcase.lookupNat ca "SKIP" then
      .ok Category.IMPROVED
    else if SumfileTestcase.lookupNat cb "FAIL" > SumfileTestcase.lookupNat ca "FAIL" then
      .ok Category.REGRESSED
    else if SumfileTestcase.lookupNat cb "SKIP" > SumfileTestcase.lookupNat ca "SKIP" then
      .ok Category.PART_SKIPPED
    else if SumfileTestcase.lookupNat cb "PASS" > SumfileTestcase.lookupNat ca "PASS" then
      .ok Category.IMPROVED
    else if dictEq cb ca then .ok Category.EQUIVALENT
    else .error (.assertionError "self.b.counts == self.a.counts")

/-- What `_categorize` produces: the category, the two records as they
stand afterwards (racy substitution during the equivalence check mutates
them in place), the warnings printed, and the racy-classifier
consultations. -/
structure CategorizeResult where
  category : Category
  a : Option SumfileTestcase
  b : Option SumfileTestcase
  warnings : List String
  racy_consults : Nat
deriving DecidableEq, Repr

/-- `_categorize`: the ordered decision procedure.  A None side yields
TEST_APPEARED / TEST_VANISHED at once (both None is the failed assert in
the source, reached only through `SumfileMatcher.__getitem__`, which
raises `KeyError` first); otherwise the equivalence check runs — possibly
mutating the records — and the remaining rules consult the mutated
records. -/
def _categorize (racy_oracle : String → Bool) (a b : Option SumfileTestcase) :
    Except DiffsumError CategorizeResult :=
  match a, b with
  | none, none => .error (.assertionError "self.b is not None")
  | none, some _ => .ok ⟨Category.TEST_APPEARED, a, b, [], 0⟩
  | some _, none => .ok ⟨Category.TEST_VANISHED, a, b, [], 0⟩
  | some ta, some tb =>
    match tcNotEquivCore racy_oracle ta tb with
    | .error e => .error e
    | .ok (ne, ta', tb', ws, n) =>
      if !ne then
        .ok ⟨_categorize_equivalent ta' tb', some ta', some tb', ws, n⟩
      else if !tb'.has_results then
        match ta'.all_skipped with
        | .error e => .error e
        | .ok true => .ok ⟨Category.SKIPPED_EQUIVALENT, some ta', some tb', ws, n⟩
        | .ok false => .ok ⟨Category.TEST_BOMBED, some ta', some tb', ws, n⟩
      else
        match tb'.all_skipped with
        | .error e => .error e
        | .ok true =>
          match ta'.all_skipped with
          | .error e => .error e
          | .ok true => .ok ⟨Category.SKIPPED_EQUIVALENT, some ta', some tb', ws, n⟩
          | .ok false => .ok ⟨Category.TEST_SKIPPED, some ta', some tb', ws, n⟩
        | .ok false =>
          match _categorize_nonequivalent ta' tb' with
          | .error e => .error e
          | .ok cat => .ok ⟨cat, some ta', some tb', ws, n⟩

end SumfileTestcasePair

/-- A parsed summary log: the mapping from test key (shortname) to
testcase record, as an insertion-ordered association list (`_read`
asserts each key is seen once). -/
structure Sumfile where
  testcases : List (String × SumfileTestcase)
deriving Repr, Inhabited

/-- The key list of a parsed log (`self.testcases.keys()`). -/
def Sumfile.keyList (sf : Sumfile) : List String :=
  sf.testcases.map (·.1)

/-- Dict lookup with a default of None, as `SumfileMatcher.__getitem__`
uses it (`self._sfa.get(key, None)`). -/
def Sumfile.get (sf : Sumfile) (key : String) : Option SumfileTestcase :=
  (sf.testcases.find? (fun p => decide (p.1 = key))).map (·.2)

namespace SumfileMatcher

/-- `SumfileMatcher.keys`: `sorted(set(a.keys()) | set(b.keys()))`. -/
def keys (sfa sfb : Sumfile) : List String :=
  List.insertionSort (· ≤ ·) ((sfa.keyList ++ sfb.keyList).dedup)

/-- `SumfileMatcher.__getitem__`: look the key up on both sides; both
absent raises `KeyError`. -/
def getItem (sfa sfb : Sumfile) (key : String) :
    Except DiffsumError (Option SumfileTestcase × Option SumfileTestcase) :=
  match sfa.get key, sfb.get key with
  | none, none => .error (.keyError key)
  | a, b => .ok (a, b)

end SumfileMatcher

/-- The trailing `[^/]+\.exp` part (followed by the literal `": "`) of
`RESULTLINE_RE`: some nonempty slash-free chunk of `s` followed by
`".exp: "` (the regex engine picks the longest such chunk; for a boolean
match only existence matters). -/
def expSegMatch (s : List Char) : Bool :=
  let run := s.takeWhile (· ≠ '/')
  (List.range (run.length + 1)).any fun k =>
    decide (1 ≤ k) && ".exp: ".data.isPrefixOf (s.drop k)

/-- Whether `RESULTLINE_RE = "^([A-Z]+): ([^/]+/[^/]+\.exp): "` matches at
the start of the line (`re.match`): one or more ASCII capitals, `": "`, a
nonempty slash-free segment, `/`, a slash-free segment ending in `.exp`,
then `": "`. -/
def resultline_matches (line : String) : Bool :=
  let s := line.data
  let caps := s.takeWhile Char.isUpper
  if caps.isEmpty then false
  else
    match s.drop caps.length with
    | ':' :: ' ' :: rest =>
      let seg1 := rest.takeWhile (· ≠ '/')
      if seg1.isEmpty then false
      else
        match rest.drop seg1.length with
        | '/' :: rest2 => expSegMatch rest2
        | _ => false
    | _ => false

/-- `BUILDERROR_STARTLINE_PREFIX` of the source. -/
def BUILDERROR_STARTLINE_PREFIX : String := "gdb compile failed,"

/-- The per-line marker stripping of `raw_build_errors`: a yielded line
that starts with the marker has it removed and is `lstrip`ped. -/
def stripBuildErrorMarker (line : String) : String :=
  if strStartsWith line BUILDERROR_STARTLINE_PREFIX then
    strLStrip ⟨line.data.drop BUILDERROR_STARTLINE_PREFIX.data.length⟩
  else line

/-- The scanning loop of `raw_build_errors`: hunt for the first line
containing the marker (taking its tail from the marker on), then yield
lines until one matches the result-line pattern or the buffer ends. -/
def rawBuildErrorsAux : Bool → List String → List String
  | _, [] => []
  | true, line :: rest =>
    match findSubIdx line.data BUILDERROR_STARTLINE_PREFIX.data with
    | none => rawBuildErrorsAux true rest
    | some start =>
      stripBuildErrorMarker ⟨line.data.drop start⟩ :: rawBuildErrorsAux false rest
  | false, line :: rest =>
    if resultline_matches line then []
    else stripBuildErrorMarker line :: rawBuildErrorsAux false rest

/-- `raw_build_errors` property: this test's build errors, exactly as found. -/
def SumfileTestcase.raw_build_errors (tc : SumfileTestcase) : List String :=
  rawBuildErrorsAux true tc.lines

/-- One `subn` pass of `NORMALIZE_FILENAME_RE = "/[^/]+/\.\./"` replacing
each non-overlapping match with `"/"`, scanning left to right and
continuing after each replacement; returns the new text and the number of
substitutions.  The fuel argument only bounds the recursion (each step
consumes at least one character, so `s.length` fuel is always enough). -/
def normSubnFuel : Nat → List Char → List Char × Nat
  | 0, s => (s, 0)
  | _ + 1, [] => ([], 0)
  | fuel + 1, c :: rest =>
    if c = '/' then
      let run := rest.takeWhile (· ≠ '/')
      if !run.isEmpty && "/../".data.isPrefixOf (rest.drop run.length) then
        let (out, n) := normSubnFuel fuel (rest.drop (run.length + 4))
        ('/' :: out, n + 1)
      else
        let (out, n) := normSubnFuel fuel rest
        (c :: out, n)
    else
      let (out, n) := normSubnFuel fuel rest
      (c :: out, n)

/-- The `while True: ... subn ... if numsubs < 1: break` loop of
`build_errors`: repeat single passes until one makes no substitution.
Every successful pass strictly shrinks the text, so `s.length` fuel is
always enough. -/
def normalizeLoop : Nat → List Char → List Char
  | 0, s => s
  | fuel + 1, s =>
    let (s', n) := normSubnFuel s.length s
    if n < 1 then s' else normalizeLoop fuel s'

/-- `build_errors` property: the raw build errors with the
parent-directory path idiom normalized away. -/
def SumfileTestcase.build_errors (tc : SumfileTestcase) : List String :=
  tc.raw_build_errors.map fun l => ⟨normalizeLoop l.data.length l.data⟩

/-- `INFILE_LOCATION_RE = ":\d+(?::\d+)?$"` under `re.search`: since the
pattern is end-anchored and the optional second `:\d+` adds no further
matchable strings, a match exists exactly when the text ends in a colon
followed by one or more digits. -/
def SumfileTestcase.is_infile_location (text : String) : Bool :=
  let rev := text.data.reverse
  let ds := rev.takeWhile Char.isDigit
  !ds.isEmpty && decide ((rev.drop ds.length).headD ' ' = ':')

/-- Match `WARNING_ERROR_RE = ":\s*(?:warning|(?:fatal\s+)?error):\s*"` at
the start of `s`, returning the matched length.  Greediness is
deterministic here: the whitespace runs are maximal (each is followed by
a non-whitespace literal) and the alternation tries `warning`, then
`fatal\s+error`, then `error`. -/
def weMatchLen (s : List Char) : Option Nat :=
  match s with
  | ':' :: rest =>
    let ws := rest.takeWhile Char.isWhitespace
    let afterWs := rest.drop ws.length
    let kw :=
      if "warning".data.isPrefixOf afterWs then some 7
      else if "fatal".data.isPrefixOf afterWs then
        let ws2 := (afterWs.drop 5).takeWhile Char.isWhitespace
        if decide (1 ≤ ws2.length)
            && "error".data.isPrefixOf ((afterWs.drop 5).drop ws2.length) then
          some (5 + ws2.length + 5)
        else none
      else if "error".data.isPrefixOf afterWs then some 5
      else none
    match kw with
    | none => none
    | some k =>
      match afterWs.drop k with
      | ':' :: tail => some (1 + ws.length + k + 1 + (tail.takeWhile Char.isWhitespace).length)
      | _ => none
  | _ => none

/-- The scan of `re.split(WARNING_ERROR_RE, line)`: find non-overlapping
matches left to right, cutting the line at each.  Each recursive call
consumes at least one character, so `s.length + 1` fuel is always enough. -/
def weSplitAux : Nat → List Char → List Char → List (List Char)
  | 0, acc, s => [acc.reverse ++ s]
  | _ + 1, acc, [] => [acc.reverse]
  | fuel + 1, acc, c :: rest =>
    match weMatchLen (c :: rest) with
    | some k => acc.reverse :: weSplitAux fuel [] ((c :: rest).drop k)
    | none => weSplitAux fuel (c :: acc) rest

/-- `WARNING_ERROR_RE.split(line)` (the pattern has no capture groups, so
the result is just the pieces between matches). -/
def weSplit (line : String) : List String :=
  (weSplitAux (line.data.length + 1) [] line.data).map fun l => ⟨l⟩

/-- `is_terse_build_error`, with the class-level `_compiler_prefixes`
cache made an explicit argument and result.  A line with no
warning/error marker is rejected; otherwise the line splits into
`(location-prefix, message)`.  A previously cached prefix is accepted; a
message carrying a `" [-W"` flag citation is accepted and, when the
prefix is not an in-file location, caches it; an in-file-location prefix
is accepted.  Three or more split parts make the two-element unpacking
raise `ValueError`, as in Python. -/
def SumfileTestcase.is_terse_build_error (prefixes : List String)
    (line : String) : Except DiffsumError (Bool × List String) :=
  match weSplit line with
  | [_] => .ok (false, prefixes)
  | [pfx, msg] =>
    if prefixes.contains pfx then .ok (true, prefixes)
    else if strContains msg " [-W" then
      if !SumfileTestcase.is_infile_location pfx then .ok (true, prefixes ++ [pfx])
      else .ok (true, prefixes)
    else if SumfileTestcase.is_infile_location pfx then .ok (true, prefixes)
    else .ok (false, prefixes)
  | _ => .error (.valueError "too many values to unpack")

/-- The initial content of `_compiler_prefixes`. -/
def initialCompilerPrefixes : List String := ["<unknown>:0"]

/-- The filtering loop of `terse_build_errors` over the build-error
lines, threading the prefix cache. -/
def terseLoop : List String → List String →
    Except DiffsumError (List String × List String)
  | prefixes, [] => .ok ([], prefixes)
  | prefixes, l :: rest =>
    match SumfileTestcase.is_terse_build_error prefixes l with
    | .error e => .error e
    | .ok (b, prefixes') =>
      match terseLoop prefixes' rest with
      | .error e => .error e
      | .ok (ys, pfinal) => .ok ((if b then l :: ys else ys), pfinal)

/-- The numbered listing `terse_build_errors` prints before aborting. -/
def tersifyFailureLines (tc : SumfileTestcase) (lines : List String) : List String :=
  ("\x1B[1;31m" ++ tc.shortname ++ ": error: can\x27t tersify errors:\x1B[0m")
    :: lines.enum.map fun p => toString (p.1 + 1) ++ ": " ++ strRStrip p.2

/-- `terse_build_errors` property (the generator run to completion, as its
consumers run it): no build-error lines yield nothing; otherwise the
terse lines among them are yielded, and if none is terse the listing is
printed and a bare `raise SystemExit` aborts — which carries exit
status 0. -/
def SumfileTestcase.terse_build_errors (prefixes : List String)
    (tc : SumfileTestcase) :
    Except DiffsumError (List String × List String) :=
  let lines := tc.build_errors
  if lines.isEmpty then .ok ([], prefixes)
  else
    match terseLoop prefixes lines with
    | .error e => .error e
    | .ok (ys, pfinal) =>
      if !ys.isEmpty then .ok (ys, pfinal)
      else .error (.systemExit 0 (tersifyFailureLines tc lines))

/-- The count-comparison decision order exactly as the specification
states it (stated from the spec's words, to be compared against
`SumfileTestcasePair._categorize_nonequivalent`): fewer passes in B gives
REGRESSED; else fewer skips in B gives IMPROVED; else more fails in B
gives REGRESSED; else more skips in B gives PART_SKIPPED; else more
passes in B gives IMPROVED; else EQUIVALENT. -/
def claimedCountOrder (pa fa sa pb fb sb : Nat) : Category :=
  if pb < pa then Category.REGRESSED
  else if sb < sa then Category.IMPROVED
  else if fb > fa then Category.REGRESSED
  else if sb > sa then Category.PART_SKIPPED
  else if pb > pa then Category.IMPROVED
  else Category.EQUIVALENT

/-- The only cooked statuses `status` can return. -/
def CountKeyOK (s : String) : Prop :=
  s = "PASS" ∨ s = "FAIL" ∨ s = "SKIP"

/-- Invariant of every dict the `counts` property can produce: keys are
valid cooked statuses, values are positive, keys are unique. -/
def CountsInv (c : List (String × Nat)) : Prop :=
  (∀ p ∈ c, CountKeyOK p.1 ∧ 0 < p.2) ∧ (c.map (·.1)).Nodup

theorem status_valid {r : SumfileTestcaseResult} {s : String}
    (h : r.status = .ok s) : CountKeyOK s := by
  simp only [SumfileTestcaseResult.status] at h
  generalize (if strStartsWith r.raw_status "UN" then "SKIP"
      else strTakeRight r.raw_status 4) = x at h
  split at h
  · rename_i hcond
    cases h
    exact hcond
  · cases h

theorem incr_inv {acc : List (String × Nat)} {s : String}
    (h : CountsInv acc) (hs : CountKeyOK s) :
    CountsInv (SumfileTestcase.incr acc s) := by
  obtain ⟨hval, hnd⟩ := h
  unfold SumfileTestcase.incr
  split
  · constructor
    · intro p hp
      obtain ⟨q, hq, rfl⟩ := List.mem_map.mp hp
      by_cases hqs : q.1 = s
      · rw [if_pos hqs]
        exact ⟨hqs ▸ hs, Nat.succ_pos _⟩
      · rw [if_neg hqs]
        exact hval q hq
    · rw [List.map_map]
      have hcomp : ((fun p : String × Nat => p.1) ∘
          fun p : String × Nat => if p.1 = s then (p.1, p.2 + 1) else p)
          = fun p : String × Nat => p.1 := by
        funext p
        by_cases hqs : p.1 = s <;> simp [hqs]
      rw [hcomp]
      exact hnd
  · rename_i hany
    constructor
    · intro p hp
      rcases List.mem_append.mp hp with hp | hp
      · exact hval p hp
      · simp only [List.mem_singleton] at hp
        subst hp
        exact ⟨hs, Nat.one_pos⟩
    · rw [List.map_append]
      simp only [List.map_cons, List.map_nil]
      rw [List.nodup_append]
      refine ⟨hnd, List.nodup_singleton s, ?_⟩
      intro x hx hx'
      simp only [List.mem_singleton] at hx'
      subst hx'
      obtain ⟨q, hq, hq1⟩ := List.mem_map.mp hx
      exact hany (List.any_eq_true.mpr ⟨q, hq, by simp [hq1]⟩)

theorem countsAux_inv :
    ∀ (rs : List SumfileTestcaseResult) (acc c : List (String × Nat)),
      CountsInv acc → SumfileTestcase.countsAux rs acc = .ok c → CountsInv c
  | [], acc, c, hinv, h => by
    simp only [SumfileTestcase.countsAux] at h
    cases h
    exact hinv
  | r :: rs, acc, c, hinv, h => by
    simp only [SumfileTestcase.countsAux] at h
    split at h
    · cases h
    · rename_i s hs
      exact countsAux_inv rs _ c (incr_inv hinv (status_valid hs)) h

theorem counts_inv {tc : SumfileTestcase} {c : List (String × Nat)}
    (h : tc.counts = .ok c) : CountsInv c :=
  countsAux_inv tc.results [] c ⟨by simp, by simp⟩ h

theorem find?_of_mem_nodup :
    ∀ {c : List (String × Nat)}, (c.map (·.1)).Nodup →
      ∀ {p : String × Nat}, p ∈ c →
        c.find? (fun q => decide (q.1 = p.1)) = some p := by
  intro c
  induction c with
  | nil => intro _ p hp; cases hp
  | cons q c ih =>
    intro hnd p hp
    rw [List.map_cons, List.nodup_cons] at hnd
    rcases List.mem_cons.mp hp with rfl | hp
    · rw [List.find?_cons_of_pos _ (by simp)]
    · have hne : q.1 ≠ p.1 := by
        intro hcontra
        exact hnd.1 (hcontra ▸ List.mem_map.mpr ⟨p, hp, rfl⟩)
      rw [List.find?_cons_of_neg _ (by simp [hne])]
      exact ih hnd.2 hp

theorem lookupNat_of_mem {c : List (String × Nat)} (hnd : (c.map (·.1)).Nodup)
    {p : String × Nat} (hp : p ∈ c) :
    SumfileTestcase.lookupNat c p.1 = p.2 := by
  unfold SumfileTestcase.lookupNat
  rw [find?_of_mem_nodup hnd hp]
  rfl

theorem dictEq_of_lookup {ca cb : List (String × Nat)}
    (ha : CountsInv ca) (hb : CountsInv cb)
    (h : ∀ s, CountKeyOK s →
      SumfileTestcase.lookupNat cb s = SumfileTestcase.lookupNat ca s) :
    dictEq cb ca = true := by
  have main : ∀ (x y : List (String × Nat)), CountsInv x → CountsInv y →
      (∀ s, CountKeyOK s →
        SumfileTestcase.lookupNat x s = SumfileTestcase.lookupNat y s) →
      x.all (fun p => decide
        ((y.find? (fun q => decide (q.1 = p.1))).map (·.2) = some p.2)) = true := by
    intro x y hx hy hxy
    rw [List.all_eq_true]
    intro p hp
    have hkey := (hx.1 p hp).1
    have hpos := (hx.1 p hp).2
    have hlx : SumfileTestcase.lookupNat x p.1 = p.2 := lookupNat_of_mem hx.2 hp
    have hly : SumfileTestcase.lookupNat y p.1 = p.2 := (hxy p.1 hkey).symm.trans hlx
    cases hfind : y.find? (fun q => decide (q.1 = p.1)) with
    | none =>
      exfalso
      unfold SumfileTestcase.lookupNat at hly
      rw [hfind] at hly
      simp only [Option.map_none', Option.getD_none] at hly
      omega
    | some q =>
      unfold SumfileTestcase.lookupNat at hly
      rw [hfind] at hly
      simpa using hly
  unfold dictEq
  rw [Bool.and_eq_true]
  exact ⟨main cb ca hb ha h, main ca cb ha hb fun s hs => (h s hs).symm⟩

theorem dictEq_lookup_eq {x y : List (String × Nat)} (h : dictEq x y = true)
    (s : String) : SumfileTestcase.lookupNat x s = SumfileTestcase.lookupNat y s := by
  unfold dictEq at h
  rw [Bool.and_eq_true, List.all_eq_true, List.all_eq_true] at h
  obtain ⟨hxy, hyx⟩ := h
  unfold SumfileTestcase.lookupNat
  cases hfx : x.find? (fun q => decide (q.1 = s)) with
  | some p =>
    have hp : p ∈ x := List.mem_of_find?_eq_some hfx
    have hps : p.1 = s := by simpa using List.find?_some hfx
    have := hxy p hp
    rw [decide_eq_true_iff] at this
    rw [hps] at this
    rw [this]
    rfl
  | none =>
    cases hfy : y.find? (fun q => decide (q.1 = s)) with
    | none => rfl
    | some q =>
      exfalso
      have hq : q ∈ y := List.mem_of_find?_eq_some hfy
      have hqs : q.1 = s := by simpa using List.find?_some hfy
      have := hyx q hq
      rw [decide_eq_true_iff] at this
      rw [hqs, hfx] at this
      cases this

theorem categorize_nonequivalent_spec {a b : SumfileTestcase}
    {ca cb : List (String × Nat)}
    (hca : a.counts = .ok ca) (hcb : b.counts = .ok cb) :
    ((SumfileTestcase.lookupNat cb "PASS" = SumfileTestcase.lookupNat ca "PASS"
      ∧ SumfileTestcase.lookupNat cb "SKIP" = SumfileTestcase.lookupNat ca "SKIP"
      ∧ SumfileTestcase.lookupNat cb "FAIL" < SumfileTestcase.lookupNat ca "FAIL") →
      SumfileTestcasePair._categorize_nonequivalent a b
        = .error (.assertionError "self.b.counts == self.a.counts"))
    ∧ (¬(SumfileTestcase.lookupNat cb "PASS" = SumfileTestcase.lookupNat ca "PASS"
      ∧ SumfileTestcase.lookupNat cb "SKIP" = SumfileTestcase.lookupNat ca "SKIP"
      ∧ SumfileTestcase.lookupNat cb "FAIL" < SumfileTestcase.lookupNat ca "FAIL") →
      SumfileTestcasePair._categorize_nonequivalent a b
        = .ok (claimedCountOrder
            (SumfileTestcase.lookupNat ca "PASS") (SumfileTestcase.lookupNat ca "FAIL")
            (SumfileTestcase.lookupNat ca "SKIP") (SumfileTestcase.lookupNat cb "PASS")
            (SumfileTestcase.lookupNat cb "FAIL") (SumfileTestcase.lookupNat cb "SKIP"))) := by
  constructor
  · rintro ⟨hp, hs, hf⟩
    unfold SumfileTestcasePair._categorize_nonequivalent
    simp only [hca, hcb]
    rw [if_neg (by omega), if_neg (by omega), if_neg (by omega),
        if_neg (by omega), if_neg (by omega), if_neg]
    intro hd
    have := dictEq_lookup_eq hd "FAIL"
    omega
  · intro hne
    unfold SumfileTestcasePair._categorize_nonequivalent claimedCountOrder
    simp only [hca, hcb]
    split_ifs with h1 h2 h3 h4 h5 h6 <;> try rfl
    exfalso
    apply h6
    refine dictEq_of_lookup (counts_inv hca) (counts_inv hcb) ?_
    intro s hs
    have hfeq : SumfileTestcase.lookupNat cb "FAIL"
        = SumfileTestcase.lookupNat ca "FAIL" := by
      by_contra hcon
      exact hne ⟨by omega, by omega, by omega⟩
    rcases hs with rfl | rfl | rfl <;> omega

theorem result_not_equivalent_to_self (racy_oracle : String → Bool)
    (r : SumfileTestcaseResult) :
    SumfileTestcaseResult.not_equivalent_to racy_oracle r (some r)
      = .ok ⟨false, none, [], 0⟩ := by
  simp [SumfileTestcaseResult.not_equivalent_to, SumfileTestcaseResult.eq]

theorem notEquivPositions_refl (racy_oracle : String → Bool) :
    ∀ (is : List Nat) (st : EquivState), st.ra = st.rb →
      notEquivPositions racy_oracle is st = .ok (false, st)
  | [], st, _ => by simp [notEquivPositions]
  | i :: rest, st, h => by
    unfold notEquivPositions
    rw [show st.ra.getD i default = st.rb.getD i default from by rw [h]]
    rw [result_not_equivalent_to_self]
    simp only [Bool.false_eq_true, if_false, List.append_nil, Nat.add_zero]
    exact notEquivPositions_refl racy_oracle rest st h

theorem tcNotEquivCore_self (racy_oracle : String → Bool) (tc : SumfileTestcase) :
    tcNotEquivCore racy_oracle tc tc = .ok (false, tc, tc, [], 0) := by
  unfold tcNotEquivCore
  rw [if_neg (by simp)]
  rw [notEquivPositions_refl racy_oracle _ ⟨tc.results, tc.results, [], 0⟩ rfl]

theorem resultsListEq_self (xs : List SumfileTestcaseResult) :
    resultsListEq xs xs = true := by
  unfold resultsListEq
  rw [Bool.and_eq_true, List.all_eq_true]
  refine ⟨by simp, ?_⟩
  intro p hp
  have hp12 : p.1 = p.2 := by
    induction xs with
    | nil => cases hp
    | cons x xs ih =>
      rw [List.zip_cons_cons, List.mem_cons] at hp
      rcases hp with rfl | hp
      · rfl
      · exact ih hp
  simp [SumfileTestcaseResult.eq, hp12]

theorem categorize_self (racy_oracle : String → Bool) (tc : SumfileTestcase) :
    SumfileTestcasePair._categorize racy_oracle (some tc) (some tc)
      = .ok ⟨Category.IDENTICAL, some tc, some tc, [], 0⟩ := by
  simp [SumfileTestcasePair._categorize, tcNotEquivCore_self,
        SumfileTestcasePair._categorize_equivalent, resultsListEq_self]

theorem categorize_not_equiv_path {racy_oracle : String → Bool}
    {ta tb ta' tb' : SumfileTestcase} {ws : List String} {n : Nat}
    (h : tcNotEquivCore racy_oracle ta tb = .ok (true, ta', tb', ws, n))
    (hres : tb'.has_results = true)
    (hskip : tb'.all_skipped = .ok false) :
    SumfileTestcasePair._categorize racy_oracle (some ta) (some tb)
      = match SumfileTestcasePair._categorize_nonequivalent ta' tb' with
        | .error e => .error e
        | .ok cat => .ok ⟨cat, some ta', some tb', ws, n⟩ := by
  unfold SumfileTestcasePair._categorize
  simp only [h, hres, hskip, Bool.not_true, Bool.false_eq_true, if_false]

theorem counts_of_no_results {tc : SumfileTestcase} (h : tc.results = []) :
    tc.counts = .ok [] := by
  unfold SumfileTestcase.counts
  rw [h]
  rfl

theorem all_skipped_of_no_results {tc : SumfileTestcase} (h : tc.results = []) :
    tc.all_skipped = .ok false := by
  unfold SumfileTestcase.all_skipped SumfileTestcase._all_one_status
  rw [counts_of_no_results h]
  simp

theorem countsAux_all_skip :
    ∀ (rs : List SumfileTestcaseResult) (m : Nat),
      (∀ r ∈ rs, r.status = .ok "SKIP") →
      SumfileTestcase.countsAux rs [("SKIP", m)] = .ok [("SKIP", m + rs.length)]
  | [], m, _ => by simp [SumfileTestcase.countsAux]
  | r :: rs, m, h => by
    unfold SumfileTestcase.countsAux
    rw [h r (List.mem_cons_self r rs)]
    have hincr : SumfileTestcase.incr [("SKIP", m)] "SKIP" = [("SKIP", m + 1)] := by
      simp [SumfileTestcase.incr]
    show SumfileTestcase.countsAux rs (SumfileTestcase.incr [("SKIP", m)] "SKIP")
      = Except.ok [("SKIP", m + (r :: rs).length)]
    rw [hincr, countsAux_all_skip rs (m + 1) (fun x hx => h x (List.mem_cons_of_mem r hx))]
    simp only [List.length_cons]
    rw [Nat.add_assoc, Nat.add_comm 1 rs.length]

theorem all_skipped_of_all_skip {tc : SumfileTestcase}
    (hne : tc.results ≠ [])
    (h : ∀ r ∈ tc.results, r.status = .ok "SKIP") :
    tc.all_skipped = .ok true := by
  unfold SumfileTestcase.all_skipped SumfileTestcase._all_one_status
  have hcounts : tc.counts = .ok [("SKIP", tc.results.length)] := by
    unfold SumfileTestcase.counts
    cases hres : tc.results with
    | nil => exact absurd hres hne
    | cons r rs =>
      unfold SumfileTestcase.countsAux
      rw [h r (hres ▸ List.mem_cons_self r rs)]
      have hincr : SumfileTestcase.incr [] "SKIP" = [("SKIP", 1)] := by
        simp [SumfileTestcase.incr]
      show SumfileTestcase.countsAux rs (SumfileTestcase.incr [] "SKIP")
        = Except.ok [("SKIP", (r :: rs).length)]
      rw [hincr, countsAux_all_skip rs 1
        (fun x hx => h x (hres ▸ List.mem_cons_of_mem r hx))]
      simp [Nat.add_comm]
  rw [hcounts]
  simp

theorem sumfile_get_of_mem_keyList :
    ∀ {sf : Sumfile} {k : String}, k ∈ sf.keyList →
      ∃ tc, sf.get k = some tc := by
  intro sf
  obtain ⟨l⟩ := sf
  induction l with
  | nil => intro k hk; cases hk
  | cons p l ih =>
    intro k hk
    by_cases hpk : p.1 = k
    · exact ⟨p.2, by simp [Sumfile.get, List.find?_cons_of_pos, hpk]⟩
    · have hk2 : k = p.1 ∨ k ∈ List.map (fun x => x.1) l := by
        simpa only [Sumfile.keyList, List.map_cons, List.mem_cons] using hk
      have hk' : k ∈ Sumfile.keyList ⟨l⟩ := by
        rcases hk2 with h1 | h1
        · exact absurd h1.symm hpk
        · exact h1
      obtain ⟨tc, htc⟩ := ih hk'
      refine ⟨tc, ?_⟩
      simpa [Sumfile.get, List.find?_cons_of_neg, hpk] using htc

theorem mem_matcher_keys_iff (sfa sfb : Sumfile) (k : String) :
    k ∈ SumfileMatcher.keys sfa sfb ↔ k ∈ sfa.keyList ∨ k ∈ sfb.keyList := by
  unfold SumfileMatcher.keys
  rw [(List.perm_insertionSort _ _).mem_iff, List.mem_dedup, List.mem_append]

theorem matcher_keys_self_toFinset (sf : Sumfile) :
    (SumfileMatcher.keys sf sf).toFinset = sf.keyList.toFinset := by
  ext x
  rw [List.mem_toFinset, List.mem_toFinset, mem_matcher_keys_iff, or_self]

theorem matcher_keys_self_length (sf : Sumfile) :
    (SumfileMatcher.keys sf sf).length = sf.keyList.dedup.length := by
  unfold SumfileMatcher.keys
  rw [(List.perm_insertionSort _ _).length_eq]
  rw [← List.card_toFinset, ← List.card_toFinset]
  congr 1
  ext x
  rw [List.mem_toFinset, List.mem_toFinset, List.mem_append, or_self]

/-- A racy oracle that accepts nothing: the model of an empty (or
non-matching) `racy.tests` allow-list. -/
def exOracle : String → Bool := fun _ => false

/-- Example run line shared by the concrete testcases below. -/
def exRunline : String := "Running /src/gdb/testsuite/gdb.base/ex.exp ...\n"

/-- Example sub-result: a PASS. -/
def exResPass : SumfileTestcaseResult := ⟨2, "PASS", "gdb.base/ex.exp", "step"⟩

/-- Example sub-result: a second PASS. -/
def exResPass2 : SumfileTestcaseResult := ⟨3, "PASS", "gdb.base/ex.exp", "step2"⟩

/-- Example sub-result: an UNTESTED (cooks to SKIP) with the same message
as `exResPass`. -/
def exResUntested : SumfileTestcaseResult := ⟨2, "UNTESTED", "gdb.base/ex.exp", "step"⟩

/-- Example sub-result: an UNSUPPORTED (cooks to SKIP). -/
def exResSkip : SumfileTestcaseResult := ⟨2, "UNSUPPORTED", "gdb.base/ex.exp", "m"⟩

/-- Example sub-result: a FAIL whose message extends no PASS message here. -/
def exResFailOther : SumfileTestcaseResult := ⟨2, "FAIL", "gdb.base/ex.exp", "other"⟩

/-- Example testcase with one PASS. -/
def exTcPass : SumfileTestcase := ⟨[exRunline], [exResPass]⟩

/-- Example testcase with two PASSes. -/
def exTcPass2 : SumfileTestcase := ⟨[exRunline], [exResPass, exResPass2]⟩

/-- Example testcase with one UNTESTED. -/
def exTcUntested : SumfileTestcase := ⟨[exRunline], [exResUntested]⟩

/-- Example testcase with one UNSUPPORTED. -/
def exTcSkip : SumfileTestcase := ⟨[exRunline], [exResSkip]⟩

/-- Example testcase with one FAIL. -/
def exTcFail : SumfileTestcase := ⟨[exRunline], [exResFailOther]⟩

/-- Example testcase with no sub-results. -/
def exTcEmpty : SumfileTestcase := ⟨[exRunline], []⟩

/-- Example testcase with no sub-results and different raw lines. -/
def exTcEmptyB : SumfileTestcase :=
  ⟨[exRunline, "some administrative line\n"], []⟩

/-- Example one-test parsed log. -/
def exSumfile : Sumfile := ⟨[("gdb.base/ex.exp", exTcPass)]⟩

/-- C5 counterexample: the claim says a non-UN raw status whose trailing
4-character suffix is not exactly PASS or FAIL is a fatal format
violation, naming a suffix of SKIP as an example; but the code accepts
SKIP suffixes: the raw status "NOSKIP" does not start with "UN", its
trailing suffix is "SKIP" (neither PASS nor FAIL), yet `status` returns
SKIP without error. -/
theorem C5_counterexample :
    SumfileTestcaseResult.status ⟨0, "NOSKIP", "gdb.base/ex.exp", "m"⟩ = .ok "SKIP"
  ∧ strStartsWith "NOSKIP" "UN" = false
  ∧ strTakeRight "NOSKIP" 4 = "SKIP"
  ∧ ("SKIP" : String) ≠ "PASS" ∧ ("SKIP" : String) ≠ "FAIL" := by decide

/-- C5 (amended): UN-prefixed raw statuses cook to SKIP; any other raw
status cooks to its trailing 4-character suffix, and the computation
raises a fatal `ValueError` exactly when that suffix is not one of PASS,
FAIL or SKIP (so a non-UN raw status ending in SKIP cooks to SKIP without
error). -/
theorem C5_status_cooking (r : SumfileTestcaseResult) :
    (strStartsWith r.raw_status "UN" = true → r.status = .ok "SKIP")
  ∧ (strStartsWith r.raw_status "UN" = false →
      r.status = (if strTakeRight r.raw_status 4 = "PASS"
            ∨ strTakeRight r.raw_status 4 = "FAIL"
            ∨ strTakeRight r.raw_status 4 = "SKIP"
          then .ok (strTakeRight r.raw_status 4)
          else .error (.valueError r.raw_status))) := by
  constructor
  · intro h
    simp [SumfileTestcaseResult.status, h]
  · intro h
    simp [SumfileTestcaseResult.status, h]

/-- C5 witness: the amended theorem applied to the concrete raw statuses
"UNRESOLVED" (cooks to SKIP) and "XYZW" (suffix "XYZW", a fatal
ValueError). -/
theorem C5_status_cooking_witness :
    SumfileTestcaseResult.status ⟨0, "UNRESOLVED", "gdb.base/ex.exp", "m"⟩ = .ok "SKIP"
  ∧ SumfileTestcaseResult.status ⟨0, "XYZW", "gdb.base/ex.exp", "m"⟩
      = .error (.valueError "XYZW") := by
  constructor
  · exact (C5_status_cooking ⟨0, "UNRESOLVED", "gdb.base/ex.exp", "m"⟩).1 (by decide)
  · have h := (C5_status_cooking ⟨0, "XYZW", "gdb.base/ex.exp", "m"⟩).2 (by decide)
    rw [h]
    decide

/-- C3 counterexample: the claim says "is a failure-of" holds exactly when
the FAIL's message is a prefix of the PASS's message; the code tests the
opposite direction.  With messages FAIL="a", PASS="ab" the claim demands
the relation hold ("a" is a prefix of "ab") but the code rejects it; with
FAIL="ab", PASS="a" the claim demands it fail, but the code accepts it. -/
theorem C3_counterexample :
    (SumfileTestcaseResult.is_failure_of ⟨2, "FAIL", "gdb.base/ex.exp", "a"⟩
        (some ⟨2, "PASS", "gdb.base/ex.exp", "ab"⟩) = .ok false
      ∧ ("a" : String).data <+: ("ab" : String).data)
  ∧ (SumfileTestcaseResult.is_failure_of ⟨2, "FAIL", "gdb.base/ex.exp", "ab"⟩
        (some ⟨2, "PASS", "gdb.base/ex.exp", "a"⟩) = .ok true
      ∧ ¬ ("ab" : String).data <+: ("a" : String).data) := by decide

/-- C3 (amended): for two sub-results with the same test key, one of
cooked status FAIL and the other of cooked status PASS, "is a failure-of"
holds exactly when the PASS sub-result's message is a prefix of the FAIL
sub-result's message. -/
theorem C3_failure_of_direction (f p : SumfileTestcaseResult)
    (htest : f.testname = p.testname)
    (hf : f.status = .ok "FAIL") (hp : p.status = .ok "PASS") :
    f.is_failure_of (some p) = .ok true ↔ p.message.data <+: f.message.data := by
  simp only [SumfileTestcaseResult.is_failure_of, SumfileTestcaseResult.not_failure_of,
    htest, hf, hp]
  simp [strStartsWith, List.isPrefixOf_iff_prefix]

/-- C3 witness: the amended theorem applied to a concrete KFAIL whose
message extends the PASS message. -/
theorem C3_failure_of_direction_witness :
    SumfileTestcaseResult.is_failure_of ⟨2, "KFAIL", "gdb.base/ex.exp", "step (timeout)"⟩
        (some ⟨2, "PASS", "gdb.base/ex.exp", "step"⟩) = .ok true :=
  (C3_failure_of_direction ⟨2, "KFAIL", "gdb.base/ex.exp", "step (timeout)"⟩
      ⟨2, "PASS", "gdb.base/ex.exp", "step"⟩ rfl (by decide) (by decide)).mpr (by decide)

/-- C7: racy substitution is idempotent.  Whenever the result-level
equivalence check on a pair accepts a racy failure and substitutes — the
outcome records equivalent with a substitution of `failer` by `passer` —
the passer equals the other position's value, so after the in-place
replacement both positions hold `passer`; re-running the check on those
two positions reports them equivalent through the literal-equality branch
(`subst = none`), with zero racy-classifier consultations and no warning
printed. -/
theorem C7_racy_subst_idempotent (racy_oracle : String → Bool)
    (a b f p : SumfileTestcaseResult) (side : Bool) (w : List String) (n : Nat)
    (h : SumfileTestcaseResult.not_equivalent_to racy_oracle a (some b)
      = .ok ⟨false, some (side, f, p), w, n⟩) :
    (p = if side then b else a)
  ∧ SumfileTestcaseResult.not_equivalent_to racy_oracle p (some p)
      = .ok ⟨false, none, [], 0⟩
  ∧ p.eq p = true := by
  refine ⟨?_, result_not_equivalent_to_self racy_oracle p,
    by simp [SumfileTestcaseResult.eq]⟩
  simp only [SumfileTestcaseResult.not_equivalent_to] at h
  by_cases heq : a.eq b = true
  · rw [if_pos heq] at h
    simp at h
  · rw [if_neg heq] at h
    cases hfa : a.is_failure_of (some b) with
    | error e => rw [hfa] at h; cases h
    | ok fa =>
      rw [hfa] at h
      cases fa with
      | true =>
        cases hracy : SumfileTestcaseResult.is_racy_failure racy_oracle a b with
        | mk racy w' =>
          rw [hracy] at h
          cases racy with
          | true =>
            injection h with h1
            injection h1 with h_ne h_subst h_w h_n
            injection h_subst with h2
            injection h2 with h_side h3
            injection h3 with h_f h_p
            rw [← h_side, ← h_p]
            simp
          | false => simp at h
      | false =>
        cases hfb : b.is_failure_of (some a) with
        | error e => rw [hfb] at h; cases h
        | ok fb =>
          rw [hfb] at h
          cases fb with
          | true =>
            cases hracy : SumfileTestcaseResult.is_racy_failure racy_oracle b a with
            | mk racy w' =>
              rw [hracy] at h
              cases racy with
              | true =>
                injection h with h1
                injection h1 with h_ne h_subst h_w h_n
                injection h_subst with h2
                injection h2 with h_side h3
                injection h3 with h_f h_p
                rw [← h_side, ← h_p]
                simp
              | false => simp at h
          | false => simp at h

/-- C7 witness: applying the theorem to the concrete KFAIL
`gdb.threads/ex.exp` failure racily matched (through the hard-coded rule)
against its PASS: the first run substitutes and prints the warning; the
substituted pair is literally equal and re-checking consults nothing and
warns nothing. -/
theorem C7_racy_subst_idempotent_witness :
    ((⟨2, "PASS", "gdb.threads/ex.exp", "step"⟩ : SumfileTestcaseResult)
        = if true then ⟨2, "PASS", "gdb.threads/ex.exp", "step"⟩
          else ⟨2, "KFAIL", "gdb.threads/ex.exp", "step (x)"⟩)
  ∧ SumfileTestcaseResult.not_equivalent_to exOracle
        ⟨2, "PASS", "gdb.threads/ex.exp", "step"⟩
        (some ⟨2, "PASS", "gdb.threads/ex.exp", "step"⟩)
      = .ok ⟨false, none, [], 0⟩
  ∧ SumfileTestcaseResult.eq ⟨2, "PASS", "gdb.threads/ex.exp", "step"⟩
      ⟨2, "PASS", "gdb.threads/ex.exp", "step"⟩ = true :=
  C7_racy_subst_idempotent exOracle
    ⟨2, "KFAIL", "gdb.threads/ex.exp", "step (x)"⟩
    ⟨2, "PASS", "gdb.threads/ex.exp", "step"⟩
    ⟨2, "KFAIL", "gdb.threads/ex.exp", "step (x)"⟩
    ⟨2, "PASS", "gdb.threads/ex.exp", "step"⟩
    true ["warning: KFAIL: gdb.threads/ex.exp: step (x): ignored (racy)"] 1
    (by decide)

/-- C4 counterexample: a matched pair in which both records are present
and both have zero sub-results is categorized IDENTICAL (the empty result
lists are equal, so the pair is equivalent and lands in
`_categorize_equivalent`), not SKIPPED_EQUIVALENT as claimed. -/
theorem C4_counterexample :
    (SumfileTestcasePair._categorize exOracle (some exTcEmpty) (some exTcEmptyB)).map
        (·.category) = .ok Category.IDENTICAL
  ∧ exTcEmpty.results = [] ∧ exTcEmptyB.results = []
  ∧ Category.IDENTICAL ≠ Category.SKIPPED_EQUIVALENT := by decide

/-- C4 (amended): every matched pair in which both records are present
and both have zero sub-results is categorized IDENTICAL. -/
theorem C4_both_empty_identical (racy_oracle : String → Bool)
    (ta tb : SumfileTestcase) (ha : ta.results = []) (hb : tb.results = []) :
    SumfileTestcasePair._categorize racy_oracle (some ta) (some tb)
      = .ok ⟨Category.IDENTICAL, some ta, some tb, [], 0⟩ := by
  have hcore : tcNotEquivCore racy_oracle ta tb = .ok (false, ta, tb, [], 0) := by
    unfold tcNotEquivCore
    rw [if_neg (by simp [ha, hb])]
    have h1 : List.range ta.results.length = [] := by rw [ha]; rfl
    rw [h1]
    simp only [notEquivPositions]
  unfold SumfileTestcasePair._categorize
  simp only [hcore, Bool.not_false, if_true]
  unfold SumfileTestcasePair._categorize_equivalent
  rw [ha, hb, if_pos (resultsListEq_self [])]

/-- C4 witness: the amended theorem applied to the two concrete records
with zero sub-results. -/
theorem C4_both_empty_identical_witness :
    SumfileTestcasePair._categorize exOracle (some exTcEmpty) (some exTcEmptyB)
      = .ok ⟨Category.IDENTICAL, some exTcEmpty, some exTcEmptyB, [], 0⟩ :=
  C4_both_empty_identical exOracle exTcEmpty exTcEmptyB rfl rfl

/-- C10: a record with zero sub-results is never all-skipped (its cooked
count dict is empty, and the all-skipped test demands the key list be
exactly ["SKIP"]); consequently a pair in which A has zero sub-results
and B has one or more sub-results all cooking to SKIP is categorized
TEST_SKIPPED (not SKIPPED_EQUIVALENT). -/
theorem C10_empty_never_all_skipped :
    (∀ tc : SumfileTestcase, tc.results = [] → tc.all_skipped = .ok false)
  ∧ (∀ (racy_oracle : String → Bool) (ta tb : SumfileTestcase),
      ta.results = [] → tb.results ≠ [] →
      (∀ r ∈ tb.results, r.status = .ok "SKIP") →
      (SumfileTestcasePair._categorize racy_oracle (some ta) (some tb)).map
          (·.category) = .ok Category.TEST_SKIPPED) := by
  constructor
  · intro tc h
    exact all_skipped_of_no_results h
  · intro racy_oracle ta tb ha htb hskips
    have hcore : tcNotEquivCore racy_oracle ta tb = .ok (true, ta, tb, [], 0) := by
      unfold tcNotEquivCore
      rw [if_pos]
      rw [ha]
      intro hcon
      exact htb (List.length_eq_zero.mp hcon.symm)
    have hres : tb.has_results = true := by
      unfold SumfileTestcase.has_results
      cases hres : tb.results with
      | nil => exact absurd hres htb
      | cons r rs => rfl
    unfold SumfileTestcasePair._categorize
    simp only [hcore, Bool.not_true, Bool.false_eq_true, if_false, hres, Bool.not_false,
      if_true, all_skipped_of_all_skip htb hskips, all_skipped_of_no_results ha]
    rfl

/-- C10 witness: the two parts applied to the concrete empty record and
the concrete pair (A empty, B one UNSUPPORTED sub-result). -/
theorem C10_empty_never_all_skipped_witness :
    exTcEmpty.all_skipped = .ok false
  ∧ (SumfileTestcasePair._categorize exOracle (some exTcEmpty) (some exTcSkip)).map
      (·.category) = .ok Category.TEST_SKIPPED :=
  ⟨C10_empty_never_all_skipped.1 exTcEmpty rfl,
   C10_empty_never_all_skipped.2 exOracle exTcEmpty exTcSkip rfl (by decide) (by decide)⟩

/-- C2 counterexample: the claim demands REGRESSED whenever B's cooked
pass count is below A's, "in particular regardless of whether B has zero
sub-results"; but with A = one PASS and B = no sub-results the
categorizer answers TEST_BOMBED (rule 4 fires before the count
comparison). -/
theorem C2_counterexample :
    (SumfileTestcasePair._categorize exOracle (some exTcPass) (some exTcEmpty)).map
        (·.category) = .ok Category.TEST_BOMBED
  ∧ exTcPass.num_passed = .ok 1
  ∧ exTcEmpty.num_passed = .ok 0
  ∧ Category.TEST_BOMBED ≠ Category.REGRESSED := by decide

/-- C2 (amended): for every matched pair with both records present that
is not overall-equivalent, where B (as the categorizer sees it, after any
racy substitution) has at least one sub-result and is not all-skipped,
a cooked pass count of B strictly below A's forces REGRESSED, regardless
of the other count deltas. -/
theorem C2_fewer_passes_regressed (racy_oracle : String → Bool)
    (ta tb ta' tb' : SumfileTestcase) (ws : List String) (n pa pb : Nat)
    (h : tcNotEquivCore racy_oracle ta tb = .ok (true, ta', tb', ws, n))
    (hres : tb'.has_results = true)
    (hskip : tb'.all_skipped = .ok false)
    (hpa : ta'.num_passed = .ok pa) (hpb : tb'.num_passed = .ok pb)
    (hlt : pb < pa) :
    (SumfileTestcasePair._categorize racy_oracle (some ta) (some tb)).map
        (·.category) = .ok Category.REGRESSED := by
  unfold SumfileTestcase.num_passed SumfileTestcase._count at hpa hpb
  cases hca : ta'.counts with
  | error e => rw [hca] at hpa; cases hpa
  | ok ca =>
    cases hcb : tb'.counts with
    | error e => rw [hcb] at hpb; cases hpb
    | ok cb =>
      rw [hca] at hpa
      rw [hcb] at hpb
      injection hpa with hpa
      injection hpb with hpb
      rw [categorize_not_equiv_path h hres hskip]
      rw [(categorize_nonequivalent_spec hca hcb).2 (by omega)]
      unfold claimedCountOrder
      rw [if_pos (by omega)]
      rfl

/-- C2 witness: the amended theorem applied to A = two PASSes versus
B = one unrelated FAIL (pass counts 2 versus 0). -/
theorem C2_fewer_passes_regressed_witness :
    (SumfileTestcasePair._categorize exOracle (some exTcPass2) (some exTcFail)).map
        (·.category) = .ok Category.REGRESSED :=
  C2_fewer_passes_regressed exOracle exTcPass2 exTcFail exTcPass2 exTcFail [] 0 2 0
    (by decide) (by decide) (by decide) (by decide) (by decide) (by decide)

/-- C1 counterexample: the claim admits any pair where B has sub-results
and "B's sub-results are not all cooked-SKIP or A's are not all
cooked-SKIP" to the count comparison; with A = one PASS and B = one
UNTESTED (so A is not all-SKIP, making the claim's disjunction true, but
B is all-SKIP) the claim's order demands REGRESSED (B has fewer passes),
yet the categorizer answers TEST_SKIPPED — rule 5 fires whenever B is
all-skipped, regardless of A. -/
theorem C1_counterexample :
    (SumfileTestcasePair._categorize exOracle (some exTcPass) (some exTcUntested)).map
        (·.category) = .ok Category.TEST_SKIPPED
  ∧ tcNotEquivCore exOracle exTcPass exTcUntested
      = .ok (true, exTcPass, exTcUntested, [], 0)
  ∧ exTcUntested.has_results = true
  ∧ exTcPass.all_skipped = .ok false
  ∧ exTcPass.num_passed = .ok 1
  ∧ exTcUntested.num_passed = .ok 0
  ∧ claimedCountOrder 1 0 0 0 0 1 = Category.REGRESSED
  ∧ Category.TEST_SKIPPED ≠ Category.REGRESSED := by decide

/-- C1 (amended): for every matched pair that reaches the final
count-comparison stage — both records present, not overall-equivalent,
and B (as the categorizer sees it after any racy substitution) has at
least one sub-result and is not all-cooked-SKIP — the category follows
the strict first-match-wins order on cooked counts (fewer passes in B:
REGRESSED; else fewer skips in B: IMPROVED; else more fails in B:
REGRESSED; else more skips in B: PART_SKIPPED; else more passes in B:
IMPROVED; else, with all three counts equal, EQUIVALENT), except that
the remaining case can also be reached with counts not identical —
passes and skips equal but B with strictly fewer fails — and then the
run aborts on the source's failed `assert self.b.counts ==
self.a.counts` instead of returning EQUIVALENT. -/
theorem C1_count_comparison_order (racy_oracle : String → Bool)
    (ta tb ta' tb' : SumfileTestcase) (ws : List String) (n : Nat)
    (ca cb : List (String × Nat))
    (h : tcNotEquivCore racy_oracle ta tb = .ok (true, ta', tb', ws, n))
    (hres : tb'.has_results = true)
    (hskip : tb'.all_skipped = .ok false)
    (hca : ta'.counts = .ok ca) (hcb : tb'.counts = .ok cb) :
    ((SumfileTestcase.lookupNat cb "PASS" = SumfileTestcase.lookupNat ca "PASS"
      ∧ SumfileTestcase.lookupNat cb "SKIP" = SumfileTestcase.lookupNat ca "SKIP"
      ∧ SumfileTestcase.lookupNat cb "FAIL" < SumfileTestcase.lookupNat ca "FAIL") →
      SumfileTestcasePair._categorize racy_oracle (some ta) (some tb)
        = .error (.assertionError "self.b.counts == self.a.counts"))
    ∧ (¬(SumfileTestcase.lookupNat cb "PASS" = SumfileTestcase.lookupNat ca "PASS"
      ∧ SumfileTestcase.lookupNat cb "SKIP" = SumfileTestcase.lookupNat ca "SKIP"
      ∧ SumfileTestcase.lookupNat cb "FAIL" < SumfileTestcase.lookupNat ca "FAIL") →
      (SumfileTestcasePair._categorize racy_oracle (some ta) (some tb)).map
          (·.category)
        = .ok (claimedCountOrder
            (SumfileTestcase.lookupNat ca "PASS") (SumfileTestcase.lookupNat ca "FAIL")
            (SumfileTestcase.lookupNat ca "SKIP") (SumfileTestcase.lookupNat cb "PASS")
            (SumfileTestcase.lookupNat cb "FAIL") (SumfileTestcase.lookupNat cb "SKIP"))) := by
  obtain ⟨hcrash, hok⟩ := categorize_nonequivalent_spec hca hcb
  constructor
  · intro hc
    rw [categorize_not_equiv_path h hres hskip, hcrash hc]
  · intro hc
    rw [categorize_not_equiv_path h hres hskip, hok hc]
    rfl

/-- C1 witness: the amended theorem applied to A = one PASS versus B =
one unrelated FAIL; the order's first rule (fewer passes in B) fires and
the pair is REGRESSED. -/
theorem C1_count_comparison_order_witness :
    (SumfileTestcasePair._categorize exOracle (some exTcPass) (some exTcFail)).map
        (·.category)
      = .ok (claimedCountOrder 1 0 0 0 1 0)
  ∧ claimedCountOrder 1 0 0 0 1 0 = Category.REGRESSED := by
  have h := (C1_count_comparison_order exOracle exTcPass exTcFail exTcPass exTcFail
    [] 0 [("PASS", 1)] [("FAIL", 1)]
    (by decide) (by decide) (by decide) (by decide) (by decide)).2 (by decide)
  exact ⟨by rw [h]; decide, by decide⟩

/-- C6: comparing a parsed log against a second parse of an exact copy of
itself (parsing is a pure function of the line sequence, so the copy
parses to the same value): the matched-pair key set equals the log's key
set, the number of pairs equals the number of distinct test keys in the
log, and every key's pair finds the same record on both sides and is
categorized IDENTICAL. -/
theorem C6_self_comparison_identical (racy_oracle : String → Bool) (sf : Sumfile) :
    (SumfileMatcher.keys sf sf).toFinset = sf.keyList.toFinset
  ∧ (SumfileMatcher.keys sf sf).length = sf.keyList.dedup.length
  ∧ ∀ k ∈ SumfileMatcher.keys sf sf,
      ∃ tc, SumfileMatcher.getItem sf sf k = .ok (some tc, some tc)
        ∧ SumfileTestcasePair._categorize racy_oracle (some tc) (some tc)
            = .ok ⟨Category.IDENTICAL, some tc, some tc, [], 0⟩ := by
  refine ⟨matcher_keys_self_toFinset sf, matcher_keys_self_length sf, ?_⟩
  intro k hk
  have hmem : k ∈ sf.keyList := ((mem_matcher_keys_iff sf sf k).mp hk).elim id id
  obtain ⟨tc, htc⟩ := sumfile_get_of_mem_keyList hmem
  refine ⟨tc, ?_, categorize_self racy_oracle tc⟩
  unfold SumfileMatcher.getItem
  rw [htc]

/-- C6 witness: the theorem applied to a concrete one-test log and its
only key. -/
theorem C6_self_comparison_identical_witness :
    ∃ tc, SumfileMatcher.getItem exSumfile exSumfile "gdb.base/ex.exp"
        = .ok (some tc, some tc)
      ∧ SumfileTestcasePair._categorize exOracle (some tc) (some tc)
          = .ok ⟨Category.IDENTICAL, some tc, some tc, [], 0⟩ :=
  (C6_self_comparison_identical exOracle exSumfile).2.2 "gdb.base/ex.exp" (by decide)

/-- The diagnostic line of the spec's terse-extraction example. -/
def exDiagLine : String :=
  "foo.c:12:5: warning: unused variable \x27x\x27 [-Wunused-variable]"

/-- C8 counterexample: on the example diagnostic line the split message is
the whole remainder "unused variable \x27x\x27 [-Wunused-variable]" (not
just "unused variable \x27x\x27"), and because the prefix "foo.c:12:5" is
an in-file location it is accepted but NOT cached — the known-good prefix
set comes back unchanged, contradicting the claimed caching. -/
theorem C8_counterexample :
    SumfileTestcase.is_terse_build_error initialCompilerPrefixes exDiagLine
      = .ok (true, initialCompilerPrefixes)
  ∧ "foo.c:12:5" ∉ initialCompilerPrefixes
  ∧ weSplit exDiagLine
      = ["foo.c:12:5", "unused variable \x27x\x27 [-Wunused-variable]"]
  ∧ ("unused variable \x27x\x27 [-Wunused-variable]" : String)
      ≠ "unused variable \x27x\x27" := by decide

/-- C8 (amended): terse classification of the single diagnostic line
accepts it, splitting it into prefix "foo.c:12:5" and message "unused
variable \x27x\x27 [-Wunused-variable]"; the prefix is an in-file
location (it ends in :line:column), so it is accepted on that ground and
the known-good prefix cache is left unchanged (only non-location
prefixes of flag-cited messages are cached). -/
theorem C8_terse_example :
    weSplit exDiagLine
      = ["foo.c:12:5", "unused variable \x27x\x27 [-Wunused-variable]"]
  ∧ SumfileTestcase.is_infile_location "foo.c:12:5" = true
  ∧ strContains "unused variable \x27x\x27 [-Wunused-variable]" " [-W" = true
  ∧ SumfileTestcase.is_terse_build_error initialCompilerPrefixes exDiagLine
      = .ok (true, initialCompilerPrefixes) := by decide

/-- A testcase whose build-error block is non-empty but contains no line
the terse filter accepts. -/
def exBadBuildTc : SumfileTestcase :=
  ⟨["Running /src/gdb/testsuite/gdb.base/ex.exp ...\n",
    "gdb compile failed, blah\n",
    "random noise\n"], []⟩

/-- C9: the claim says every fatal condition aborts with a NON-ZERO exit
status; but the terse-extraction failure path executes a bare
`raise SystemExit`, whose exit status is 0.  On a non-empty build-error
block with no terse line, `terse_build_errors` prints the numbered
listing naming the offending test and aborts with exit status 0 —
indistinguishable from success by exit status, contradicting both the
claim and the source's own error message. -/
theorem C9_terse_failure_exit_status_zero :
    SumfileTestcase.terse_build_errors initialCompilerPrefixes exBadBuildTc
      = .error (.systemExit 0
          ["\x1B[1;31mgdb.base/ex.exp: error: can\x27t tersify errors:\x1B[0m",
           "1: blah", "2: random noise"])
  ∧ DiffsumError.exit_status
      (.systemExit 0
          ["\x1B[1;31mgdb.base/ex.exp: error: can\x27t tersify errors:\x1B[0m",
           "1: blah", "2: random noise"]) = 0
  ∧ exBadBuildTc.build_errors = ["blah\n", "random noise\n"] := by decide
